/-
  Verification of the defai_estate inheritance program
  (src/security-auditor/archive_backups/lib_original.rs).

  Shallow embedding: each instruction handler becomes a Lean function on a
  `World` record holding the estate account, its lamport balance, the
  beneficiary lamport balances, the claim records, the recovery account,
  the RWA accounts and the token balances.  Machine integers are modelled
  as `Nat`/`Int`; wrapping arithmetic (`u8`/`u64` overflow in release
  builds) is written with explicit `% 2^w`.  Each handler returns a `Step`
  that on failure carries the state as of the error point, mirroring the
  source's literal order of `require!` checks and mutations.  Account
  creation (`init` constraints) is modelled as an effect of the handler;
  Anchor-level account-allocation collisions are outside the embedded
  source (the spec itself notes the source does not guard re-initiating a
  pending Recovery).
-/
import Mathlib

namespace DefaiEstate

/-! ## Constants (lib_original.rs lines 14-21) -/

def MIN_INACTIVITY_PERIOD : Int := 24 * 60 * 60
def MAX_INACTIVITY_PERIOD : Int := 300 * 365 * 24 * 60 * 60
def MIN_GRACE_PERIOD : Int := 24 * 60 * 60
def MAX_GRACE_PERIOD : Int := 90 * 24 * 60 * 60
def MAX_BENEFICIARIES : Nat := 10
def MIN_RENT_BALANCE : Nat := 890880

/-- Modulus of `u64` arithmetic. -/
def U64_MOD : Nat := 2 ^ 64

/-- Wrapping `u64` addition (release-mode `+=`). -/
def u64add (a b : Nat) : Nat := (a + b) % U64_MOD

/-- Wrapping `u64` subtraction (release-mode `-=`); for `b ≤ a < 2^64`
this is exact subtraction. -/
def u64sub (a b : Nat) : Nat := (a + U64_MOD - b % U64_MOD) % U64_MOD

/-! ## Data model (lib_original.rs lines 627-711).
Pubkeys and 32-byte hashes are modelled as `Nat`. -/

structure Beneficiary where
  address : Nat
  email_hash : Nat
  share_percentage : Nat      -- u8
  claimed : Bool
  notification_sent : Bool
deriving Repr, DecidableEq

structure Estate where
  estate_id : Nat
  owner : Nat
  owner_email_hash : Nat
  last_active : Int
  inactivity_period : Int
  grace_period : Int
  beneficiaries : List Beneficiary
  total_beneficiaries : Nat   -- u8
  creation_time : Int
  estate_value : Nat          -- u64
  is_locked : Bool
  is_claimable : Bool
  total_rwas : Nat            -- u32
  estate_number : Nat         -- u64
  total_claims : Nat          -- u8
deriving Repr, DecidableEq

structure RWA where
  estate : Nat
  rwa_type : String
  name : String
  description : String
  value : String
  metadata_uri : String
  created_at : Int
  is_active : Bool
  rwa_number : Nat            -- u32
  current_owner : Nat
deriving Repr, DecidableEq

structure TokenClaim where
  mint : Nat
  amount : Nat                -- u64
deriving Repr, DecidableEq

structure ClaimRecord where
  estate : Nat
  beneficiary : Nat
  claim_time : Int
  sol_amount : Nat            -- u64
  share_percentage : Nat      -- u8
  tokens_claimed : List TokenClaim
  nfts_claimed : List Nat
deriving Repr, DecidableEq

structure Recovery where
  estate : Nat
  initiator : Nat
  initiation_time : Int
  execution_time : Int
  reason : String
  is_executed : Bool
deriving Repr, DecidableEq

/-- Errors of the program (lib_original.rs lines 1063-1117) plus the
Anchor account-validation failures the handlers rely on. -/
inductive EstateError where
  | InvalidInactivityPeriod
  | InvalidGracePeriod
  | EstateLocked
  | UnauthorizedAccess
  | EstateClaimable
  | TooManyBeneficiaries
  | InvalidBeneficiaryShares
  | AlreadyClaimable
  | NotYetClaimable
  | NotClaimable
  | InvalidBeneficiaryIndex
  | UnauthorizedBeneficiary
  | AlreadyClaimed
  | AlreadyLocked
  | NotLocked
  | RWAAlreadyDeleted
  | InvalidClaimRecord
  | InvalidRWA
  | NotAllClaimed
  | MustClaimInheritanceFirst
  | TokenAlreadyClaimed
  | NFTAlreadyClaimed
  | InvalidNFTAmount
  | RecoveryTooEarly
  | RecoveryAlreadyExecuted
  | RecoveryNotReady
  | AccountNotFound          -- Anchor: required account does not exist
  | ConstraintHasOne         -- Anchor: has_one constraint violated
  | IndexOutOfBounds         -- Rust panic: Vec index out of range
deriving Repr, DecidableEq

/-- The ledger state one transaction acts on: one estate with its
dependent accounts.  Balances are association lists keyed by pubkey
(resp. mint, (owner, mint)). -/
structure World where
  estateKey : Nat
  estate : Estate
  estateLamports : Nat                       -- u64
  benefLamports : List (Nat × Nat)
  claimRecords : List ClaimRecord
  recovery : Option Recovery
  rwas : List RWA
  estateTokenBals : List (Nat × Nat)         -- mint ↦ estate ATA amount
  benefTokenBals : List ((Nat × Nat) × Nat)  -- (owner, mint) ↦ amount
deriving Repr, DecidableEq

/-- Result of one instruction: success with the new state, or failure
carrying the state as of the error point (the source raises every
`require!` before any mutation). -/
inductive Step where
  | ok : World → Step
  | failed : EstateError → World → Step
deriving Repr, DecidableEq

def Step.isOk : Step → Bool
  | .ok _ => true
  | .failed _ _ => false

/-- The state after a step (the carried state on failure). -/
def resultWorld : Step → World
  | .ok w => w
  | .failed _ w => w

/-! ## Association-list helpers for balances -/

def getA {α : Type} [DecidableEq α] (k : α) : List (α × Nat) → Nat
  | [] => 0
  | (k', v) :: t => if k' = k then v else getA k t

def setA {α : Type} [DecidableEq α] (k : α) (v : Nat) : List (α × Nat) → List (α × Nat)
  | [] => [(k, v)]
  | (k', v') :: t => if k' = k then (k, v) :: t else (k', v') :: setA k v t

/-- `iter().map(|b| b.share_percentage).sum::<u8>()`: u8 accumulation,
wrapping mod 256 in release builds. -/
def sumSharesU8 (bs : List Beneficiary) : Nat :=
  bs.foldl (fun acc b => (acc + b.share_percentage) % 256) 0

/-! ## Instruction handlers (lib_original.rs lines 77-624) -/

/-- `check_in` (lines 77-93): requires not locked and caller == owner;
resets `last_active` and clears `is_claimable`. -/
def check_in (caller : Nat) (now : Int) (w : World) : Step :=
  if w.estate.is_locked then .failed .EstateLocked w
  else if caller ≠ w.estate.owner then .failed .UnauthorizedAccess w
  else .ok { w with estate := { w.estate with last_active := now, is_claimable := false } }

/-- `update_beneficiaries` (lines 95-125): requires not locked, not
claimable, caller == owner, `len ≤ 10`, and the u8 sum of the share
percentages equal to 100; replaces the list. -/
def update_beneficiaries (caller : Nat) (bs : List Beneficiary) (w : World) : Step :=
  if w.estate.is_locked then .failed .EstateLocked w
  else if w.estate.is_claimable then .failed .EstateClaimable w
  else if caller ≠ w.estate.owner then .failed .UnauthorizedAccess w
  else if ¬ bs.length ≤ MAX_BENEFICIARIES then .failed .TooManyBeneficiaries w
  else if sumSharesU8 bs ≠ 100 then .failed .InvalidBeneficiaryShares w
  else .ok { w with estate := { w.estate with
        beneficiaries := bs,
        total_beneficiaries := bs.length % 256 } }

/-- `trigger_inheritance` (lines 211-231): requires not locked, not
already claimable, and `now > last_active + inactivity_period +
grace_period` (strict); sets `is_claimable = true`. -/
def trigger_inheritance (_caller : Nat) (now : Int) (w : World) : Step :=
  if w.estate.is_locked then .failed .EstateLocked w
  else if w.estate.is_claimable then .failed .AlreadyClaimable w
  else
    let inactive_since := w.estate.last_active + w.estate.inactivity_period
    let grace_ends := inactive_since + w.estate.grace_period
    if ¬ now > grace_ends then .failed .NotYetClaimable w
    else .ok { w with estate := { w.estate with is_claimable := true } }

/-- `create_rwa` (lines 127-162): requires not locked, not claimable,
caller == owner; appends a new active RWA numbered `total_rwas` and
increments `total_rwas` (u32). -/
def create_rwa (caller : Nat) (now : Int)
    (rwa_type name description value metadata_uri : String) (w : World) : Step :=
  if w.estate.is_locked then .failed .EstateLocked w
  else if w.estate.is_claimable then .failed .EstateClaimable w
  else if caller ≠ w.estate.owner then .failed .UnauthorizedAccess w
  else .ok { w with
    rwas := w.rwas ++ [{
      estate := w.estateKey, rwa_type := rwa_type, name := name,
      description := description, value := value, metadata_uri := metadata_uri,
      created_at := now, is_active := true, rwa_number := w.estate.total_rwas,
      current_owner := w.estate.owner }],
    estate := { w.estate with total_rwas := (w.estate.total_rwas + 1) % 2 ^ 32 } }

/-- `delete_rwa` (lines 164-186): requires not locked, not claimable,
caller == owner, RWA of this estate and still active; soft-deletes by
clearing `is_active`.  `rwaIdx` selects the RWA account passed in. -/
def delete_rwa (caller : Nat) (rwaIdx : Nat) (w : World) : Step :=
  match w.rwas[rwaIdx]? with
  | none => .failed .AccountNotFound w
  | some r =>
    if w.estate.is_locked then .failed .EstateLocked w
    else if w.estate.is_claimable then .failed .EstateClaimable w
    else if caller ≠ w.estate.owner then .failed .UnauthorizedAccess w
    else if r.estate ≠ w.estateKey then .failed .UnauthorizedAccess w
    else if ¬ r.is_active then .failed .RWAAlreadyDeleted w
    else .ok { w with rwas := w.rwas.set rwaIdx { r with is_active := false } }

/-- `claim_inheritance` (lines 233-262, v1): requires claimable, index in
bounds, caller == that beneficiary's address, not yet claimed; only sets
the `claimed` flag (no transfer, no claim record, no `total_claims`). -/
def claim_inheritance (caller : Nat) (idx : Nat) (w : World) : Step :=
  if ¬ w.estate.is_claimable then .failed .NotClaimable w
  else if ¬ idx < w.estate.total_beneficiaries then .failed .InvalidBeneficiaryIndex w
  else match w.estate.beneficiaries[idx]? with
  | none => .failed .IndexOutOfBounds w
  | some b =>
    if b.address ≠ caller then .failed .UnauthorizedBeneficiary w
    else if b.claimed then .failed .AlreadyClaimed w
    else .ok { w with estate := { w.estate with
      beneficiaries := w.estate.beneficiaries.set idx { b with claimed := true } } }

/-- `claim_inheritance_v2` (lines 264-329): after the same validation as
v1, computes `sol_share = ((balance.saturating_sub MIN_RENT_BALANCE) as
u128 * share as u128 / 100) as u64` (the u128 product of a u64 and a u8
cannot overflow, so the source's `checked_mul`/`checked_div` unwraps never
fail), moves that many lamports from the estate to the beneficiary when
positive, creates the ClaimRecord, marks the beneficiary claimed and
increments `total_claims` (u8). -/
def claim_inheritance_v2 (caller : Nat) (now : Int) (idx : Nat) (w : World) : Step :=
  if ¬ w.estate.is_claimable then .failed .NotClaimable w
  else if ¬ idx < w.estate.total_beneficiaries then .failed .InvalidBeneficiaryIndex w
  else match w.estate.beneficiaries[idx]? with
  | none => .failed .IndexOutOfBounds w
  | some b =>
    if b.address ≠ caller then .failed .UnauthorizedBeneficiary w
    else if b.claimed then .failed .AlreadyClaimed w
    else
      let transferable := w.estateLamports - MIN_RENT_BALANCE   -- saturating_sub
      let sol_share := (transferable * b.share_percentage / 100) % U64_MOD  -- as u64
      let w1 := if sol_share > 0 then
          { w with estateLamports := u64sub w.estateLamports sol_share,
                   benefLamports := setA caller
                     (u64add (getA caller w.benefLamports) sol_share) w.benefLamports }
        else w
      .ok { w1 with
        claimRecords := w1.claimRecords ++ [{
          estate := w1.estateKey, beneficiary := caller, claim_time := now,
          sol_amount := sol_share, share_percentage := b.share_percentage,
          tokens_claimed := [], nfts_claimed := [] }],
        estate := { w1.estate with
          beneficiaries := w1.estate.beneficiaries.set idx { b with claimed := true },
          total_claims := (w1.estate.total_claims + 1) % 256 } }

/-- `transfer_rwa_ownership` (lines 331-368): requires claimable, a
ClaimRecord of this estate belonging to the caller, and an active RWA of
this estate with the given number; reassigns `current_owner`.
`recIdx`/`rwaIdx` select the accounts passed in; the Anchor
`has_one = beneficiary` constraint on the record carries the custom
error `UnauthorizedBeneficiary` and is re-checked in the body. -/
def transfer_rwa_ownership (caller : Nat) (recIdx rwaIdx : Nat)
    (rwa_number : Nat) (w : World) : Step :=
  match w.claimRecords[recIdx]? with
  | none => .failed .AccountNotFound w
  | some rec =>
    match w.rwas[rwaIdx]? with
    | none => .failed .AccountNotFound w
    | some r =>
      if rec.beneficiary ≠ caller then .failed .UnauthorizedBeneficiary w
      else if ¬ w.estate.is_claimable then .failed .NotClaimable w
      else if rec.estate ≠ w.estateKey then .failed .InvalidClaimRecord w
      else if rec.beneficiary ≠ caller then .failed .UnauthorizedBeneficiary w
      else if r.estate ≠ w.estateKey then .failed .InvalidRWA w
      else if r.rwa_number ≠ rwa_number then .failed .InvalidRWA w
      else if ¬ r.is_active then .failed .RWAAlreadyDeleted w
      else .ok { w with rwas := w.rwas.set rwaIdx { r with current_owner := caller } }

/-- `claim_token` (lines 370-445): Anchor checks the ClaimRecord's
`has_one = beneficiary` (error `UnauthorizedBeneficiary`) and
`has_one = estate` (error `InvalidClaimRecord`); the body requires
claimable, index in bounds, caller == that beneficiary's address,
`claimed == true`, and the mint absent from `tokens_claimed`; computes
`(estate_token_balance as u128 * share as u128 / 100) as u64` and, when
positive, transfers it and appends the TokenClaim. -/
def claim_token (caller : Nat) (recIdx : Nat) (idx : Nat) (mint : Nat) (w : World) : Step :=
  match w.claimRecords[recIdx]? with
  | none => .failed .AccountNotFound w
  | some rec =>
    if rec.beneficiary ≠ caller then .failed .UnauthorizedBeneficiary w
    else if rec.estate ≠ w.estateKey then .failed .InvalidClaimRecord w
    else if ¬ w.estate.is_claimable then .failed .NotClaimable w
    else if ¬ idx < w.estate.total_beneficiaries then .failed .InvalidBeneficiaryIndex w
    else match w.estate.beneficiaries[idx]? with
    | none => .failed .IndexOutOfBounds w
    | some b =>
      if b.address ≠ caller then .failed .UnauthorizedBeneficiary w
      else if ¬ b.claimed then .failed .MustClaimInheritanceFirst w
      else if rec.tokens_claimed.any (fun tc => tc.mint = mint) then
        .failed .TokenAlreadyClaimed w
      else
        let estate_token_balance := getA mint w.estateTokenBals
        let token_share := (estate_token_balance * b.share_percentage / 100) % U64_MOD
        if token_share > 0 then
          .ok { w with
            estateTokenBals := setA mint (u64sub estate_token_balance token_share)
              w.estateTokenBals,
            benefTokenBals := setA (caller, mint)
              (u64add (getA (caller, mint) w.benefTokenBals) token_share)
              w.benefTokenBals,
            claimRecords := w.claimRecords.set recIdx { rec with
              tokens_claimed := rec.tokens_claimed ++ [{ mint := mint, amount := token_share }] } }
        else .ok w

/-- `claim_nft` (lines 447-514): same validation as `claim_token` against
`nfts_claimed` (error `NFTAlreadyClaimed`); additionally requires the
estate's balance of the mint to be exactly 1; transfers the single unit
and appends the mint. -/
def claim_nft (caller : Nat) (recIdx : Nat) (idx : Nat) (mint : Nat) (w : World) : Step :=
  match w.claimRecords[recIdx]? with
  | none => .failed .AccountNotFound w
  | some rec =>
    if rec.beneficiary ≠ caller then .failed .UnauthorizedBeneficiary w
    else if rec.estate ≠ w.estateKey then .failed .InvalidClaimRecord w
    else if ¬ w.estate.is_claimable then .failed .NotClaimable w
    else if ¬ idx < w.estate.total_beneficiaries then .failed .InvalidBeneficiaryIndex w
    else match w.estate.beneficiaries[idx]? with
    | none => .failed .IndexOutOfBounds w
    | some b =>
      if b.address ≠ caller then .failed .UnauthorizedBeneficiary w
      else if ¬ b.claimed then .failed .MustClaimInheritanceFirst w
      else if rec.nfts_claimed.any (fun m => m = mint) then
        .failed .NFTAlreadyClaimed w
      else if getA mint w.estateTokenBals ≠ 1 then .failed .InvalidNFTAmount w
      else
        .ok { w with
          estateTokenBals := setA mint (u64sub (getA mint w.estateTokenBals) 1)
            w.estateTokenBals,
          benefTokenBals := setA (caller, mint)
            (u64add (getA (caller, mint) w.benefTokenBals) 1) w.benefTokenBals,
          claimRecords := w.claimRecords.set recIdx { rec with
            nfts_claimed := rec.nfts_claimed ++ [mint] } }

/-- `close_estate` (lines 516-528): requires claimable and `total_claims
== total_beneficiaries`; the body mutates nothing (the account close and
rent refund are performed by the runtime's `close = authority`
constraint).  Any signer may call — there is no owner check. -/
def close_estate (_caller : Nat) (w : World) : Step :=
  if ¬ w.estate.is_claimable then .failed .NotClaimable w
  else if w.estate.total_claims ≠ w.estate.total_beneficiaries then .failed .NotAllClaimed w
  else .ok w

/-- `emergency_lock` (lines 530-544): requires not already locked and
caller == owner; sets `is_locked`. -/
def emergency_lock (caller : Nat) (w : World) : Step :=
  if w.estate.is_locked then .failed .AlreadyLocked w
  else if caller ≠ w.estate.owner then .failed .UnauthorizedAccess w
  else .ok { w with estate := { w.estate with is_locked := true } }

/-- `emergency_unlock` (lines 546-564): requires locked and caller ==
owner; clears `is_locked` (the verification code is not checked). -/
def emergency_unlock (caller : Nat) (_verification_code : Nat) (w : World) : Step :=
  if ¬ w.estate.is_locked then .failed .NotLocked w
  else if caller ≠ w.estate.owner then .failed .UnauthorizedAccess w
  else .ok { w with estate := { w.estate with is_locked := false } }

/-- `initiate_recovery` (lines 566-594): requires claimable and `now -
last_active - inactivity_period - grace_period ≥ 30 days`; records the
Recovery with `execution_time = now + 7 days`.  The source does not guard
a pending Recovery, so a re-initiation overwrites it. -/
def initiate_recovery (admin : Nat) (now : Int) (reason : String) (w : World) : Step :=
  if ¬ w.estate.is_claimable then .failed .NotClaimable w
  else
    let claimable_duration := now - w.estate.last_active - w.estate.inactivity_period
      - w.estate.grace_period
    if ¬ claimable_duration ≥ 30 * 24 * 60 * 60 then .failed .RecoveryTooEarly w
    else .ok { w with recovery := some {
      estate := w.estateKey, initiator := admin, initiation_time := now,
      reason := reason, is_executed := false,
      execution_time := now + 7 * 24 * 60 * 60 } }

/-- `execute_recovery` (lines 596-624): the Recovery account must exist
for this estate (`has_one = estate`); requires `!is_executed` and `now ≥
execution_time`; neither the caller nor `recovery_address` is checked
against anything.  Marks the Recovery executed, replaces the estate
owner with `recovery_address`, clears `is_claimable` and `is_locked`,
and clears the beneficiary list. -/
def execute_recovery (_admin : Nat) (recovery_address : Nat) (now : Int) (w : World) : Step :=
  match w.recovery with
  | none => .failed .AccountNotFound w
  | some r =>
    if r.estate ≠ w.estateKey then .failed .ConstraintHasOne w
    else if r.is_executed then .failed .RecoveryAlreadyExecuted w
    else if ¬ now ≥ r.execution_time then .failed .RecoveryNotReady w
    else .ok { w with
      recovery := some { r with is_executed := true },
      estate := { w.estate with
        owner := recovery_address, is_claimable := false, is_locked := false,
        beneficiaries := [], total_beneficiaries := 0 } }

/-! ## The instruction set as one step relation -/

/-- One invocation of an estate-scoped instruction, with its caller, the
clock value at call time, and its arguments. -/
inductive Op where
  | opCheckIn (caller : Nat) (now : Int)
  | opUpdateBeneficiaries (caller : Nat) (bs : List Beneficiary)
  | opCreateRwa (caller : Nat) (now : Int) (t n d v u : String)
  | opDeleteRwa (caller : Nat) (rwaIdx : Nat)
  | opTriggerInheritance (caller : Nat) (now : Int)
  | opClaimInheritance (caller : Nat) (idx : Nat)
  | opClaimInheritanceV2 (caller : Nat) (now : Int) (idx : Nat)
  | opTransferRwaOwnership (caller : Nat) (recIdx rwaIdx rwa_number : Nat)
  | opClaimToken (caller : Nat) (recIdx idx mint : Nat)
  | opClaimNft (caller : Nat) (recIdx idx mint : Nat)
  | opCloseEstate (caller : Nat)
  | opEmergencyLock (caller : Nat)
  | opEmergencyUnlock (caller : Nat) (code : Nat)
  | opInitiateRecovery (admin : Nat) (now : Int) (reason : String)
  | opExecuteRecovery (admin : Nat) (recovery_address : Nat) (now : Int)
deriving Repr, DecidableEq

def applyOp : Op → World → Step
  | .opCheckIn c t, w => check_in c t w
  | .opUpdateBeneficiaries c bs, w => update_beneficiaries c bs w
  | .opCreateRwa c t a b d e f, w => create_rwa c t a b d e f w
  | .opDeleteRwa c i, w => delete_rwa c i w
  | .opTriggerInheritance c t, w => trigger_inheritance c t w
  | .opClaimInheritance c i, w => claim_inheritance c i w
  | .opClaimInheritanceV2 c t i, w => claim_inheritance_v2 c t i w
  | .opTransferRwaOwnership c r i n, w => transfer_rwa_ownership c r i n w
  | .opClaimToken c r i m, w => claim_token c r i m w
  | .opClaimNft c r i m, w => claim_nft c r i m w
  | .opCloseEstate c, w => close_estate c w
  | .opEmergencyLock c, w => emergency_lock c w
  | .opEmergencyUnlock c k, w => emergency_unlock c k w
  | .opInitiateRecovery a t s, w => initiate_recovery a t s w
  | .opExecuteRecovery a r t, w => execute_recovery a r t w

/-! ## Helper lemmas -/

lemma getA_setA {α : Type} [DecidableEq α] (k : α) (v : Nat) (l : List (α × Nat)) :
    getA k (setA k v l) = v := by
  induction l with
  | nil => simp [setA, getA]
  | cons p t ih =>
    obtain ⟨k', v'⟩ := p
    by_cases hk : k' = k
    · simp [setA, hk, getA]
    · simp [setA, hk, getA, ih]

lemma u64add_exact (a b : Nat) (h : a + b < U64_MOD) : u64add a b = a + b :=
  Nat.mod_eq_of_lt h

lemma u64sub_exact (a b : Nat) (ha : a < U64_MOD) (hba : b ≤ a) :
    u64sub a b = a - b := by
  unfold u64sub U64_MOD at *
  have h64 : (2 : Nat) ^ 64 = 18446744073709551616 := by norm_num
  rw [Nat.mod_eq_of_lt (lt_of_le_of_lt hba ha)]
  omega

lemma sumSharesU8_eq_sum_mod (bs : List Beneficiary) :
    sumSharesU8 bs = (bs.map Beneficiary.share_percentage).sum % 256 := by
  suffices h : ∀ (a : Nat), a < 256 →
      bs.foldl (fun acc b => (acc + b.share_percentage) % 256) a
        = (a + (bs.map Beneficiary.share_percentage).sum) % 256 by
    simpa [sumSharesU8] using h 0 (by norm_num)
  induction bs with
  | nil => intro a ha; simp [Nat.mod_eq_of_lt ha]
  | cons b t ih =>
    intro a ha
    simp only [List.foldl_cons, List.map_cons, List.sum_cons]
    rw [ih _ (Nat.mod_lt _ (by norm_num)), Nat.mod_add_mod]
    omega

/-! ## Concrete states used as test vectors -/

def estate0 : Estate := {
  estate_id := 50, owner := 1, owner_email_hash := 0, last_active := 0,
  inactivity_period := 86400, grace_period := 86400,
  beneficiaries := [], total_beneficiaries := 0, creation_time := 0,
  estate_value := 0, is_locked := false, is_claimable := false,
  total_rwas := 0, estate_number := 0, total_claims := 0 }

def world0 : World := {
  estateKey := 100, estate := estate0, estateLamports := 1000890880,
  benefLamports := [], claimRecords := [], recovery := none, rwas := [],
  estateTokenBals := [], benefTokenBals := [] }

def worldLocked : World :=
  { world0 with estate := { estate0 with is_locked := true } }

def worldClaimable : World :=
  { world0 with estate := { estate0 with is_claimable := true } }

/-! ## Claim theorems -/

/-- C2: for an estate that is not locked and not already claimable,
`trigger_inheritance` fails with `NotYetClaimable` whenever
`now ≤ last_active + inactivity_period + grace_period` (including the
boundary instant), and succeeds one unit past the boundary and at any
later time, setting `is_claimable := true`. -/
theorem trigger_inheritance_boundary (caller : Nat) (now : Int) (w : World)
    (hl : w.estate.is_locked = false) (hc : w.estate.is_claimable = false) :
    (now ≤ w.estate.last_active + w.estate.inactivity_period + w.estate.grace_period →
      trigger_inheritance caller now w = .failed .NotYetClaimable w)
  ∧ (now > w.estate.last_active + w.estate.inactivity_period + w.estate.grace_period →
      trigger_inheritance caller now w
        = .ok { w with estate := { w.estate with is_claimable := true } }) := by
  constructor <;> intro h
  · simp [trigger_inheritance, hl, hc, not_lt.mpr h]
  · simp [trigger_inheritance, hl, hc, h]

/-- Witness for C2 at the exact boundary: with `last_active = 0` and 24h
periods the deadline is 172800; the call at 172800 fails
`NotYetClaimable` and the call at 172801 succeeds. -/
theorem trigger_inheritance_boundary_witness :
    trigger_inheritance 7 172800 world0 = .failed .NotYetClaimable world0
  ∧ trigger_inheritance 7 172801 world0
      = .ok { world0 with estate := { world0.estate with is_claimable := true } } :=
  ⟨(trigger_inheritance_boundary 7 172800 world0 rfl rfl).1 (by decide),
   (trigger_inheritance_boundary 7 172801 world0 rfl rfl).2 (by decide)⟩

/-- C5 counterexample: a locked, not-yet-claimable estate whose deadline
has long passed.  The claim says `trigger_inheritance` still succeeds;
the code rejects it with `EstateLocked` (lib_original.rs line 215). -/
theorem trigger_inheritance_locked_counterexample :
    worldLocked.estate.is_locked = true
  ∧ worldLocked.estate.is_claimable = false
  ∧ ((1000000 : Int) > worldLocked.estate.last_active
      + worldLocked.estate.inactivity_period + worldLocked.estate.grace_period)
  ∧ trigger_inheritance 7 1000000 worldLocked = .failed .EstateLocked worldLocked
  ∧ (trigger_inheritance 7 1000000 worldLocked).isOk = false := by decide

/-- C5 amended: emergency lock DOES block clock-based triggering — for
every locked estate, `trigger_inheritance` fails with `EstateLocked`
regardless of the clock. -/
theorem trigger_inheritance_locked (caller : Nat) (now : Int) (w : World)
    (hl : w.estate.is_locked = true) :
    trigger_inheritance caller now w = .failed .EstateLocked w := by
  simp [trigger_inheritance, hl]

/-- Witness for the amended C5. -/
theorem trigger_inheritance_locked_witness :
    trigger_inheritance 9 1000000 worldLocked = .failed .EstateLocked worldLocked :=
  trigger_inheritance_locked 9 1000000 worldLocked rfl

/-- C8: given a claimable estate, `close_estate` succeeds iff
`total_claims = total_beneficiaries`, and fails `NotAllClaimed` whenever
`total_claims` is short of `total_beneficiaries`. -/
theorem close_estate_spec (caller : Nat) (w : World)
    (hc : w.estate.is_claimable = true) :
    ((close_estate caller w).isOk = true
        ↔ w.estate.total_claims = w.estate.total_beneficiaries)
  ∧ (w.estate.total_claims < w.estate.total_beneficiaries →
      close_estate caller w = .failed .NotAllClaimed w) := by
  refine ⟨⟨fun h => ?_, fun h => ?_⟩, fun h => ?_⟩
  · by_contra hne
    simp [close_estate, hc, hne, Step.isOk] at h
  · simp [close_estate, hc, h, Step.isOk]
  · simp [close_estate, hc, Nat.ne_of_lt h]

/-- Witness for C8: the claimable test estate has `total_claims = 0 =
total_beneficiaries`, so closing succeeds. -/
theorem close_estate_spec_witness :
    (((close_estate 5 worldClaimable).isOk = true
        ↔ worldClaimable.estate.total_claims = worldClaimable.estate.total_beneficiaries)
  ∧ (worldClaimable.estate.total_claims < worldClaimable.estate.total_beneficiaries →
      close_estate 5 worldClaimable = .failed .NotAllClaimed worldClaimable)) :=
  close_estate_spec 5 worldClaimable rfl

/-- C10: `execute_recovery` constrains neither the caller nor the new
owner: for every caller and every supplied `recovery_address`, once the
estate's Recovery exists, is not executed, and `now ≥ execution_time`,
the call succeeds and installs exactly `recovery_address` as owner. -/
theorem execute_recovery_unconstrained (caller addr : Nat) (now : Int)
    (w : World) (r : Recovery)
    (hr : w.recovery = some r) (hre : r.estate = w.estateKey)
    (hx : r.is_executed = false) (ht : now ≥ r.execution_time) :
    execute_recovery caller addr now w = .ok { w with
      recovery := some { r with is_executed := true },
      estate := { w.estate with
        owner := addr, is_claimable := false, is_locked := false,
        beneficiaries := [], total_beneficiaries := 0 } }
  ∧ (resultWorld (execute_recovery caller addr now w)).estate.owner = addr := by
  have h : execute_recovery caller addr now w = .ok { w with
      recovery := some { r with is_executed := true },
      estate := { w.estate with
        owner := addr, is_claimable := false, is_locked := false,
        beneficiaries := [], total_beneficiaries := 0 } } := by
    simp [execute_recovery, hr, hre, hx, ht]
  exact ⟨h, by rw [h]; rfl⟩

def recovery0 : Recovery := {
  estate := 100, initiator := 3, initiation_time := 0,
  execution_time := 604800, reason := "owner lost", is_executed := false }

def worldRec : World := { worldClaimable with recovery := some recovery0 }

/-- Witness for C10: a caller (42) and new owner (77) unrelated to the
initiator (3) succeed at `now = execution_time`. -/
theorem execute_recovery_unconstrained_witness :
    execute_recovery 42 77 604800 worldRec = .ok { worldRec with
      recovery := some { recovery0 with is_executed := true },
      estate := { worldRec.estate with
        owner := 77, is_claimable := false, is_locked := false,
        beneficiaries := [], total_beneficiaries := 0 } }
  ∧ (resultWorld (execute_recovery 42 77 604800 worldRec)).estate.owner = 77 :=
  execute_recovery_unconstrained 42 77 604800 worldRec recovery0 rfl rfl rfl (by decide)

def benA : Beneficiary := {
  address := 2, email_hash := 0, share_percentage := 200,
  claimed := false, notification_sent := false }

def benB : Beneficiary := {
  address := 3, email_hash := 0, share_percentage := 156,
  claimed := false, notification_sent := false }

/-- C3 counterexample: the u8 accumulator wraps — the list
`[200%, 156%]` has mathematical share sum 356, yet
`update_beneficiaries` accepts it because `356 % 256 = 100`
(lib_original.rs line 113 sums into a `u8`). -/
theorem update_beneficiaries_wrap_counterexample :
    (update_beneficiaries 1 [benA, benB] world0).isOk = true
  ∧ (resultWorld (update_beneficiaries 1 [benA, benB] world0)).estate.beneficiaries
      = [benA, benB]
  ∧ ([benA, benB].map Beneficiary.share_percentage).sum = 356
  ∧ ¬ ([benA, benB].map Beneficiary.share_percentage).sum = 100
  ∧ [benA, benB].length ≤ 10 := by decide

/-- C3 amended: every list accepted by `update_beneficiaries` has length
at most 10 and mathematical share sum congruent to 100 modulo 256 (not
necessarily exactly 100), and becomes the estate's beneficiary list. -/
theorem update_beneficiaries_accepted_mod (caller : Nat) (bs : List Beneficiary)
    (w w' : World) (h : update_beneficiaries caller bs w = .ok w') :
    bs.length ≤ 10
  ∧ (bs.map Beneficiary.share_percentage).sum % 256 = 100
  ∧ w'.estate.beneficiaries = bs := by
  unfold update_beneficiaries at h
  split at h
  · exact absurd h (by simp)
  split at h
  · exact absurd h (by simp)
  split at h
  · exact absurd h (by simp)
  split at h
  · exact absurd h (by simp)
  split at h
  · exact absurd h (by simp)
  rename_i h1 h2 h3 h4 h5
  rw [Step.ok.injEq] at h
  subst h
  refine ⟨by simpa [MAX_BENEFICIARIES] using not_not.mp h4, ?_, rfl⟩
  have hs := not_not.mp h5
  rwa [sumSharesU8_eq_sum_mod] at hs

def ben100 : Beneficiary := {
  address := 2, email_hash := 0, share_percentage := 100,
  claimed := false, notification_sent := false }

def worldB : World := { world0 with estate := { estate0 with
  beneficiaries := [ben100], total_beneficiaries := 1 } }

/-- Witness for the amended C3 on the accepted singleton list `[100%]`. -/
theorem update_beneficiaries_accepted_mod_witness :
    [ben100].length ≤ 10
  ∧ ([ben100].map Beneficiary.share_percentage).sum % 256 = 100
  ∧ worldB.estate.beneficiaries = [ben100] :=
  update_beneficiaries_accepted_mod 1 [ben100] world0 worldB (by decide)

/-- C4: `initiate_recovery` on a claimable estate succeeds iff the estate
has been claimable for at least 30 days (else `RecoveryTooEarly`),
recording `execution_time = now + 7 days`; `execute_recovery` before
`execution_time` fails `RecoveryNotReady`, at/after it succeeds —
clearing the beneficiary list, `is_claimable` and `is_locked`, installing
the supplied recovery identity as owner and marking the Recovery executed
— after which a second call fails `RecoveryAlreadyExecuted`. -/
theorem recovery_flow (w w2 : World) (admin caller addr : Nat)
    (now now2 now3 : Int) (reason : String) (r : Recovery)
    (hc : w.estate.is_claimable = true)
    (hr : w2.recovery = some r) (hre : r.estate = w2.estateKey)
    (hx : r.is_executed = false) :
    (now - w.estate.last_active - w.estate.inactivity_period - w.estate.grace_period
        ≥ 30 * 24 * 60 * 60 →
      initiate_recovery admin now reason w = .ok { w with recovery := some {
        estate := w.estateKey, initiator := admin, initiation_time := now,
        reason := reason, is_executed := false,
        execution_time := now + 7 * 24 * 60 * 60 } })
  ∧ (now - w.estate.last_active - w.estate.inactivity_period - w.estate.grace_period
        < 30 * 24 * 60 * 60 →
      initiate_recovery admin now reason w = .failed .RecoveryTooEarly w)
  ∧ (now2 < r.execution_time →
      execute_recovery caller addr now2 w2 = .failed .RecoveryNotReady w2)
  ∧ (now2 ≥ r.execution_time →
      ∃ w2', execute_recovery caller addr now2 w2 = .ok w2'
        ∧ w2'.estate.owner = addr
        ∧ w2'.estate.is_claimable = false
        ∧ w2'.estate.is_locked = false
        ∧ w2'.estate.beneficiaries = []
        ∧ w2'.estate.total_beneficiaries = 0
        ∧ w2'.recovery = some { r with is_executed := true }
        ∧ execute_recovery caller addr now3 w2' = .failed .RecoveryAlreadyExecuted w2') := by
  refine ⟨fun h => ?_, fun h => ?_, fun h => ?_, fun h => ?_⟩
  · have h' : (2592000 : Int) ≤ now - w.estate.last_active
        - w.estate.inactivity_period - w.estate.grace_period := by omega
    simp [initiate_recovery, hc, h']
  · have h' : now - w.estate.last_active - w.estate.inactivity_period
        - w.estate.grace_period < (2592000 : Int) := by omega
    simp [initiate_recovery, hc, not_le.mpr h']
  · simp [execute_recovery, hr, hre, hx, not_le.mpr h]
  · have hw : execute_recovery caller addr now2 w2 = .ok { w2 with
        recovery := some { r with is_executed := true },
        estate := { w2.estate with
          owner := addr, is_claimable := false, is_locked := false,
          beneficiaries := [], total_beneficiaries := 0 } } := by
      simp [execute_recovery, hr, hre, hx, h]
    refine ⟨_, hw, rfl, rfl, rfl, rfl, rfl, rfl, ?_⟩
    simp [execute_recovery, hre]

def worldClaim30 : World :=
  { world0 with estate := { estate0 with is_claimable := true } }

/-- Witness for C4: deadline 172800, initiation at `now = 2764800`
(exactly 30 days claimable) succeeds; for the execution half, execution
time 604800: a call at 604799 fails `RecoveryNotReady`, at 604800 it
succeeds and a later repeat fails `RecoveryAlreadyExecuted`. -/
theorem recovery_flow_witness :
    ((2764800 : Int) - worldClaim30.estate.last_active
        - worldClaim30.estate.inactivity_period - worldClaim30.estate.grace_period
        ≥ 30 * 24 * 60 * 60 →
      initiate_recovery 3 2764800 "r" worldClaim30 = .ok { worldClaim30 with
        recovery := some {
          estate := worldClaim30.estateKey, initiator := 3, initiation_time := 2764800,
          reason := "r", is_executed := false,
          execution_time := 2764800 + 7 * 24 * 60 * 60 } })
  ∧ ((2764800 : Int) - worldClaim30.estate.last_active
        - worldClaim30.estate.inactivity_period - worldClaim30.estate.grace_period
        < 30 * 24 * 60 * 60 →
      initiate_recovery 3 2764800 "r" worldClaim30 = .failed .RecoveryTooEarly worldClaim30)
  ∧ ((604799 : Int) < recovery0.execution_time →
      execute_recovery 4 9 604799 worldRec = .failed .RecoveryNotReady worldRec)
  ∧ ((604799 : Int) ≥ recovery0.execution_time →
      ∃ w2', execute_recovery 4 9 604799 worldRec = .ok w2'
        ∧ w2'.estate.owner = 9
        ∧ w2'.estate.is_claimable = false
        ∧ w2'.estate.is_locked = false
        ∧ w2'.estate.beneficiaries = []
        ∧ w2'.estate.total_beneficiaries = 0
        ∧ w2'.recovery = some { recovery0 with is_executed := true }
        ∧ execute_recovery 4 9 700000 w2' = .failed .RecoveryAlreadyExecuted w2') :=
  recovery_flow worldClaim30 worldRec 3 4 9 2764800 604799 700000 "r" recovery0
    rfl rfl rfl rfl

/-- C1: on a claimable estate, a beneficiary in bounds matching the
caller and not yet claimed receives exactly
`floor((balance - MIN_RENT_BALANCE) * share / 100)` lamports — the u64
balances are assumed well-formed (`< 2^64`), the share is within the data
model's 0–100 range, and `total_claims` has headroom; the estate keeps
`balance - transferred`, the ClaimRecord is created, the `claimed` flag
is set and `total_claims` incremented by one, and a second invocation
for the same index fails `AlreadyClaimed`. -/
theorem claim_inheritance_v2_spec (caller : Nat) (now now2 : Int) (idx : Nat)
    (w : World) (b : Beneficiary)
    (hc : w.estate.is_claimable = true)
    (hidx : idx < w.estate.total_beneficiaries)
    (hb : w.estate.beneficiaries[idx]? = some b)
    (haddr : b.address = caller)
    (hcl : b.claimed = false)
    (hshare : b.share_percentage ≤ 100)
    (hlam : w.estateLamports < 2 ^ 64)
    (hsum : getA caller w.benefLamports + w.estateLamports < 2 ^ 64)
    (htc : w.estate.total_claims < 255) :
    ∃ w', claim_inheritance_v2 caller now idx w = .ok w'
      ∧ w'.estateLamports = w.estateLamports
          - (w.estateLamports - MIN_RENT_BALANCE) * b.share_percentage / 100
      ∧ getA caller w'.benefLamports = getA caller w.benefLamports
          + (w.estateLamports - MIN_RENT_BALANCE) * b.share_percentage / 100
      ∧ w'.claimRecords = w.claimRecords ++ [{
          estate := w.estateKey, beneficiary := caller, claim_time := now,
          sol_amount := (w.estateLamports - MIN_RENT_BALANCE) * b.share_percentage / 100,
          share_percentage := b.share_percentage,
          tokens_claimed := [], nfts_claimed := [] }]
      ∧ w'.estate.beneficiaries[idx]? = some { b with claimed := true }
      ∧ w'.estate.total_claims = w.estate.total_claims + 1
      ∧ claim_inheritance_v2 caller now2 idx w' = .failed .AlreadyClaimed w' := by
  have hlen : idx < w.estate.beneficiaries.length := (List.getElem?_eq_some.mp hb).1
  set L := w.estateLamports with hL
  set S := (L - MIN_RENT_BALANCE) * b.share_percentage / 100 with hSdef
  have hSle : S ≤ L - MIN_RENT_BALANCE := by
    have h1 : (L - MIN_RENT_BALANCE) * b.share_percentage
        ≤ (L - MIN_RENT_BALANCE) * 100 := Nat.mul_le_mul_left _ hshare
    have h2 := Nat.div_le_div_right (c := 100) h1
    omega
  have hSleL : S ≤ L := le_trans hSle (Nat.sub_le _ _)
  have hSlt : S < 2 ^ 64 := lt_of_le_of_lt hSleL hlam
  have hmod : S % U64_MOD = S := Nat.mod_eq_of_lt hSlt
  have hx : getA caller w.benefLamports + S < 2 ^ 64 := by omega
  have hkey : claim_inheritance_v2 caller now idx w = .ok { w with
      estateLamports := L - S,
      benefLamports := if S > 0 then
          setA caller (getA caller w.benefLamports + S) w.benefLamports
        else w.benefLamports,
      claimRecords := w.claimRecords ++ [{
        estate := w.estateKey, beneficiary := caller, claim_time := now,
        sol_amount := S, share_percentage := b.share_percentage,
        tokens_claimed := [], nfts_claimed := [] }],
      estate := { w.estate with
        beneficiaries := w.estate.beneficiaries.set idx { b with claimed := true },
        total_claims := (w.estate.total_claims + 1) % 256 } } := by
    by_cases hS0 : S = 0
    · simp [claim_inheritance_v2, hc, hidx, hb, haddr, hcl, hS0, hmod,
        hL.symm, hSdef.symm]
    · have hpos : 0 < S := Nat.pos_of_ne_zero hS0
      simp [claim_inheritance_v2, hc, hidx, hb, haddr, hcl, hmod,
        hL.symm, hSdef.symm, hpos,
        u64add_exact _ _ hx, u64sub_exact L S hlam hSleL, hS0]
  refine ⟨_, hkey, ?_, ?_, rfl, ?_, ?_, ?_⟩
  · rfl
  · by_cases hS0 : S = 0
    · simp [hS0]
    · simp [Nat.pos_of_ne_zero hS0, getA_setA]
  · exact List.getElem?_set_self hlen
  · simpa using Nat.mod_eq_of_lt (show w.estate.total_claims + 1 < 256 by omega)
  · simp [claim_inheritance_v2, hc, hidx, haddr, List.getElem?_set_self hlen]

def ben60 : Beneficiary := {
  address := 2, email_hash := 0, share_percentage := 60,
  claimed := false, notification_sent := false }

def worldC1 : World := { world0 with
  estate := { estate0 with
    is_claimable := true, beneficiaries := [ben60], total_beneficiaries := 1 },
  estateLamports := 891880 }

/-- Witness for C1: balance 891880, reserve 890880, share 60% — the
beneficiary receives exactly 600 lamports and a repeat claim fails. -/
theorem claim_inheritance_v2_spec_witness :
    ∃ w', claim_inheritance_v2 2 5 0 worldC1 = .ok w'
      ∧ w'.estateLamports = worldC1.estateLamports
          - (worldC1.estateLamports - MIN_RENT_BALANCE) * ben60.share_percentage / 100
      ∧ getA 2 w'.benefLamports = getA 2 worldC1.benefLamports
          + (worldC1.estateLamports - MIN_RENT_BALANCE) * ben60.share_percentage / 100
      ∧ w'.claimRecords = worldC1.claimRecords ++ [{
          estate := worldC1.estateKey, beneficiary := 2, claim_time := 5,
          sol_amount := (worldC1.estateLamports - MIN_RENT_BALANCE)
            * ben60.share_percentage / 100,
          share_percentage := ben60.share_percentage,
          tokens_claimed := [], nfts_claimed := [] }]
      ∧ w'.estate.beneficiaries[0]? = some { ben60 with claimed := true }
      ∧ w'.estate.total_claims = worldC1.estate.total_claims + 1
      ∧ claim_inheritance_v2 2 6 0 w' = .failed .AlreadyClaimed w' :=
  claim_inheritance_v2_spec 2 5 6 0 worldC1 ben60 rfl (by decide) rfl rfl rfl
    (by decide) (by decide) (by decide) (by decide)

def benT : Beneficiary := {
  address := 2, email_hash := 0, share_percentage := 60,
  claimed := true, notification_sent := false }

def recC7 : ClaimRecord := {
  estate := 100, beneficiary := 2, claim_time := 0, sol_amount := 600,
  share_percentage := 60, tokens_claimed := [], nfts_claimed := [] }

def worldC7 : World := { world0 with
  estate := { estate0 with
    is_claimable := true, beneficiaries := [benT], total_beneficiaries := 1 },
  claimRecords := [recC7],
  estateTokenBals := [(77, 1)] }

/-- C7 counterexample: mint 77 is NOT in the beneficiary's claimed list
and the estate holds 1 unit; share 60% gives `floor(1 * 60 / 100) = 0`,
and the call succeeds WITHOUT appending the (mint, amount) entry
(lib_original.rs lines 407-435 only append when the share is positive),
contradicting the claim that a successful claim of a fresh mint appends
its entry. -/
theorem claim_token_zero_counterexample :
    claim_token 2 0 0 77 worldC7 = .ok worldC7
  ∧ worldC7.claimRecords[0]? = some recC7
  ∧ recC7.tokens_claimed = []
  ∧ ¬ 77 ∈ recC7.tokens_claimed.map TokenClaim.mint
  ∧ getA 77 worldC7.estateTokenBals * 60 / 100 = 0
  ∧ (resultWorld (claim_token 2 0 0 77 worldC7)).claimRecords = [recC7] := by decide

/-- C7 amended: `claim_token` requires the beneficiary's `claimed` flag
(else `MustClaimInheritanceFirst`) and rejects a mint already present in
the ClaimRecord (`TokenAlreadyClaimed`); for a fresh mint it succeeds —
when `floor(balance * share / 100)` is positive it transfers that amount
and appends the (mint, amount) entry, and when the floor is zero it
succeeds as a no-op without appending, so a zero-amount mint remains
claimable again. -/
theorem claim_token_spec (caller recIdx idx mint : Nat) (w : World)
    (rec : ClaimRecord) (b : Beneficiary)
    (hrec : w.claimRecords[recIdx]? = some rec)
    (hrb : rec.beneficiary = caller)
    (hre : rec.estate = w.estateKey)
    (hc : w.estate.is_claimable = true)
    (hidx : idx < w.estate.total_beneficiaries)
    (hb : w.estate.beneficiaries[idx]? = some b)
    (haddr : b.address = caller)
    (hshare : b.share_percentage ≤ 100)
    (hbal : getA mint w.estateTokenBals < 2 ^ 64)
    (hbbal : getA (caller, mint) w.benefTokenBals
      + getA mint w.estateTokenBals < 2 ^ 64) :
    (b.claimed = false →
      claim_token caller recIdx idx mint w = .failed .MustClaimInheritanceFirst w)
  ∧ (b.claimed = true → mint ∈ rec.tokens_claimed.map TokenClaim.mint →
      claim_token caller recIdx idx mint w = .failed .TokenAlreadyClaimed w)
  ∧ (b.claimed = true → ¬ mint ∈ rec.tokens_claimed.map TokenClaim.mint →
      (getA mint w.estateTokenBals * b.share_percentage / 100 = 0 →
        claim_token caller recIdx idx mint w = .ok w)
    ∧ (0 < getA mint w.estateTokenBals * b.share_percentage / 100 →
        ∃ w', claim_token caller recIdx idx mint w = .ok w'
          ∧ w'.claimRecords[recIdx]? = some { rec with
              tokens_claimed := rec.tokens_claimed ++ [{
                mint := mint,
                amount := getA mint w.estateTokenBals * b.share_percentage / 100 }] }
          ∧ getA mint w'.estateTokenBals = getA mint w.estateTokenBals
              - getA mint w.estateTokenBals * b.share_percentage / 100
          ∧ getA (caller, mint) w'.benefTokenBals
              = getA (caller, mint) w.benefTokenBals
                + getA mint w.estateTokenBals * b.share_percentage / 100)) := by
  have hreclen : recIdx < w.claimRecords.length := (List.getElem?_eq_some.mp hrec).1
  have hmem : (rec.tokens_claimed.any fun tc => tc.mint = mint) = true
      ↔ mint ∈ rec.tokens_claimed.map TokenClaim.mint := by
    simp [List.any_eq_true]
  set B := getA mint w.estateTokenBals with hB
  set T := B * b.share_percentage / 100 with hT
  have hTle : T ≤ B := by
    have h1 : B * b.share_percentage ≤ B * 100 := Nat.mul_le_mul_left _ hshare
    have h2 := Nat.div_le_div_right (c := 100) h1
    omega
  have hTlt : T < 2 ^ 64 := lt_of_le_of_lt hTle hbal
  have hmod : T % U64_MOD = T := Nat.mod_eq_of_lt hTlt
  have hbb : getA (caller, mint) w.benefTokenBals + T < 2 ^ 64 := by omega
  refine ⟨fun hcl => ?_, fun hcl hin => ?_, fun hcl hnin => ⟨fun hz => ?_, fun hpos => ?_⟩⟩
  · simp [claim_token, hrec, hrb, hre, hc, hidx, hb, haddr, hcl]
  · simp [claim_token, hrec, hrb, hre, hc, hidx, hb, haddr, hcl, hmem.mpr hin]
  · have hany : ¬ (rec.tokens_claimed.any fun tc => tc.mint = mint) = true :=
      fun hh => hnin (hmem.mp hh)
    simp [claim_token, hrec, hrb, hre, hc, hidx, hb, haddr, hcl,
      eq_false hany, hmod, hB.symm, hT.symm, hz]
  · have hany : ¬ (rec.tokens_claimed.any fun tc => tc.mint = mint) = true :=
      fun hh => hnin (hmem.mp hh)
    have hkey : claim_token caller recIdx idx mint w = .ok { w with
        estateTokenBals := setA mint (B - T) w.estateTokenBals,
        benefTokenBals := setA (caller, mint)
          (getA (caller, mint) w.benefTokenBals + T) w.benefTokenBals,
        claimRecords := w.claimRecords.set recIdx { rec with
          tokens_claimed := rec.tokens_claimed ++ [{ mint := mint, amount := T }] } } := by
      simp [claim_token, hrec, hrb, hre, hc, hidx, hb, haddr, hcl,
        eq_false hany, hmod, hB.symm, hT.symm, hpos,
        u64add_exact _ _ hbb, u64sub_exact B T hbal hTle]
    refine ⟨_, hkey, ?_, ?_, ?_⟩
    · exact List.getElem?_set_self hreclen
    · simp [getA_setA]
    · simp [getA_setA]

/-- Witness for the amended C7, on the zero-floor world: rejection
branches and the zero-amount no-op branch are all exercised at
`worldC7`. -/
theorem claim_token_spec_witness :
    (benT.claimed = false →
      claim_token 2 0 0 77 worldC7 = .failed .MustClaimInheritanceFirst worldC7)
  ∧ (benT.claimed = true → 77 ∈ recC7.tokens_claimed.map TokenClaim.mint →
      claim_token 2 0 0 77 worldC7 = .failed .TokenAlreadyClaimed worldC7)
  ∧ (benT.claimed = true → ¬ 77 ∈ recC7.tokens_claimed.map TokenClaim.mint →
      (getA 77 worldC7.estateTokenBals * benT.share_percentage / 100 = 0 →
        claim_token 2 0 0 77 worldC7 = .ok worldC7)
    ∧ (0 < getA 77 worldC7.estateTokenBals * benT.share_percentage / 100 →
        ∃ w', claim_token 2 0 0 77 worldC7 = .ok w'
          ∧ w'.claimRecords[0]? = some { recC7 with
              tokens_claimed := recC7.tokens_claimed ++ [{
                mint := 77,
                amount := getA 77 worldC7.estateTokenBals * benT.share_percentage / 100 }] }
          ∧ getA 77 w'.estateTokenBals = getA 77 worldC7.estateTokenBals
              - getA 77 worldC7.estateTokenBals * benT.share_percentage / 100
          ∧ getA (2, 77) w'.benefTokenBals
              = getA (2, 77) worldC7.benefTokenBals
                + getA 77 worldC7.estateTokenBals * benT.share_percentage / 100)) :=
  claim_token_spec 2 0 0 77 worldC7 recC7 benT rfl rfl rfl rfl (by decide) rfl rfl
    (by decide) (by decide) (by decide)

/-- C6 counterexample: `check_in` is an operation other than
`execute_recovery`, yet on a claimable estate the owner's check-in
succeeds and resets `is_claimable` to false (lib_original.rs line 88). -/
theorem check_in_clears_claimable_counterexample :
    applyOp (Op.opTriggerInheritance 7 172801) world0 = .ok worldClaimable
  ∧ worldClaimable.estate.is_claimable = true
  ∧ (applyOp (Op.opCheckIn 1 5) worldClaimable).isOk = true
  ∧ (resultWorld (applyOp (Op.opCheckIn 1 5) worldClaimable)).estate.is_claimable
      = false := by decide

/-- C6 amended: once `is_claimable` is true, every operation in the
interface other than `execute_recovery` AND `check_in` leaves it true
(the owner's check-in is a second, spec-sanctioned way back out of the
claimable state). -/
theorem is_claimable_preserved (op : Op) (w : World)
    (hc : w.estate.is_claimable = true)
    (hnotCheckIn : ∀ c t, op ≠ Op.opCheckIn c t)
    (hnotExec : ∀ a r t, op ≠ Op.opExecuteRecovery a r t) :
    (resultWorld (applyOp op w)).estate.is_claimable = true := by
  cases op with
  | opCheckIn c t => exact absurd rfl (hnotCheckIn c t)
  | opExecuteRecovery a r t => exact absurd rfl (hnotExec a r t)
  | opUpdateBeneficiaries c bs =>
    simp only [applyOp, update_beneficiaries]
    repeat' split
    all_goals simp_all [resultWorld]
  | opCreateRwa c t a b d e f =>
    simp only [applyOp, create_rwa]
    repeat' split
    all_goals simp_all [resultWorld]
  | opDeleteRwa c i =>
    simp only [applyOp, delete_rwa]
    repeat' split
    all_goals simp_all [resultWorld]
  | opTriggerInheritance c t =>
    simp only [applyOp, trigger_inheritance]
    repeat' split
    all_goals simp_all [resultWorld]
  | opClaimInheritance c i =>
    simp only [applyOp, claim_inheritance]
    repeat' split
    all_goals simp_all [resultWorld]
  | opClaimInheritanceV2 c t i =>
    simp only [applyOp, claim_inheritance_v2]
    repeat' split
    all_goals simp_all [resultWorld]
  | opTransferRwaOwnership c r i n =>
    simp only [applyOp, transfer_rwa_ownership]
    repeat' split
    all_goals simp_all [resultWorld]
  | opClaimToken c r i m =>
    simp only [applyOp, claim_token]
    repeat' split
    all_goals simp_all [resultWorld]
  | opClaimNft c r i m =>
    simp only [applyOp, claim_nft]
    repeat' split
    all_goals simp_all [resultWorld]
  | opCloseEstate c =>
    simp only [applyOp, close_estate]
    repeat' split
    all_goals simp_all [resultWorld]
  | opEmergencyLock c =>
    simp only [applyOp, emergency_lock]
    repeat' split
    all_goals simp_all [resultWorld]
  | opEmergencyUnlock c k =>
    simp only [applyOp, emergency_unlock]
    repeat' split
    all_goals simp_all [resultWorld]
  | opInitiateRecovery a t s =>
    simp only [applyOp, initiate_recovery]
    repeat' split
    all_goals simp_all [resultWorld]

/-- Witness for the amended C6: locking a claimable estate leaves
`is_claimable` true. -/
theorem is_claimable_preserved_witness :
    (resultWorld (applyOp (Op.opEmergencyLock 1) worldClaimable)).estate.is_claimable
      = true :=
  is_claimable_preserved (Op.opEmergencyLock 1) worldClaimable rfl
    (fun c t h => Op.noConfusion h) (fun a r t h => Op.noConfusion h)

set_option maxHeartbeats 2000000 in
/-- C9: every operation is atomic on error — whenever an instruction
returns an error, the carried state (estate, beneficiary list, lamports,
RWAs, ClaimRecords, Recovery, token balances) is exactly the input state:
in the source every `require!` fires before any mutation. -/
theorem failed_atomic (op : Op) (w w' : World) (e : EstateError)
    (h : applyOp op w = .failed e w') : w' = w := by
  cases op with
  | opCheckIn c t =>
    simp only [applyOp, check_in] at h
    repeat' split at h
    all_goals first
      | exact Step.noConfusion h
      | (injection h with h1 h2; exact h2.symm)
  | opExecuteRecovery a r t =>
    simp only [applyOp, execute_recovery] at h
    repeat' split at h
    all_goals first
      | exact Step.noConfusion h
      | (injection h with h1 h2; exact h2.symm)
  | opUpdateBeneficiaries c bs =>
    simp only [applyOp, update_beneficiaries] at h
    repeat' split at h
    all_goals first
      | exact Step.noConfusion h
      | (injection h with h1 h2; exact h2.symm)
  | opCreateRwa c t a b d e f =>
    simp only [applyOp, create_rwa] at h
    repeat' split at h
    all_goals first
      | exact Step.noConfusion h
      | (injection h with h1 h2; exact h2.symm)
  | opDeleteRwa c i =>
    simp only [applyOp, delete_rwa] at h
    repeat' split at h
    all_goals first
      | exact Step.noConfusion h
      | (injection h with h1 h2; exact h2.symm)
  | opTriggerInheritance c t =>
    simp only [applyOp, trigger_inheritance] at h
    repeat' split at h
    all_goals first
      | exact Step.noConfusion h
      | (injection h with h1 h2; exact h2.symm)
  | opClaimInheritance c i =>
    simp only [applyOp, claim_inheritance] at h
    repeat' split at h
    all_goals first
      | exact Step.noConfusion h
      | (injection h with h1 h2; exact h2.symm)
  | opClaimInheritanceV2 c t i =>
    simp only [applyOp, claim_inheritance_v2] at h
    repeat' split at h
    all_goals first
      | exact Step.noConfusion h
      | (injection h with h1 h2; exact h2.symm)
  | opTransferRwaOwnership c r i n =>
    simp only [applyOp, transfer_rwa_ownership] at h
    repeat' split at h
    all_goals first
      | exact Step.noConfusion h
      | (injection h with h1 h2; exact h2.symm)
  | opClaimToken c r i m =>
    simp only [applyOp, claim_token] at h
    repeat' split at h
    all_goals first
      | exact Step.noConfusion h
      | (injection h with h1 h2; exact h2.symm)
  | opClaimNft c r i m =>
    simp only [applyOp, claim_nft] at h
    repeat' split at h
    all_goals first
      | exact Step.noConfusion h
      | (injection h with h1 h2; exact h2.symm)
  | opCloseEstate c =>
    simp only [applyOp, close_estate] at h
    repeat' split at h
    all_goals first
      | exact Step.noConfusion h
      | (injection h with h1 h2; exact h2.symm)
  | opEmergencyLock c =>
    simp only [applyOp, emergency_lock] at h
    repeat' split at h
    all_goals first
      | exact Step.noConfusion h
      | (injection h with h1 h2; exact h2.symm)
  | opEmergencyUnlock c k =>
    simp only [applyOp, emergency_unlock] at h
    repeat' split at h
    all_goals first
      | exact Step.noConfusion h
      | (injection h with h1 h2; exact h2.symm)
  | opInitiateRecovery a t s =>
    simp only [applyOp, initiate_recovery] at h
    repeat' split at h
    all_goals first
      | exact Step.noConfusion h
      | (injection h with h1 h2; exact h2.symm)

/-- Witness for C9: closing the non-claimable test estate fails with
`NotClaimable` and the carried state equals the input. -/
theorem failed_atomic_witness : world0 = world0 :=
  failed_atomic (Op.opCloseEstate 1) world0 world0 EstateError.NotClaimable (by decide)

end DefaiEstate
